import Mathlib

set_option autoImplicit false

/-!
Shallow embedding of `ax/generation_strategy/generation_strategy.py`
(`GenerationStrategy`).  The external collaborators that the strategy calls
into — `GenerationNode.should_transition_to_next_node`, `GenerationNode.gen`,
`GenerationNode.is_completed`, `GenerationNode.new_trial_limit` and the
helper `extend_pending_observations` — live outside this repository slice and
are treated as opaque oracles: their answers are supplied through environment
records, exactly mirroring how the strategy code consumes their results.
Python exceptions do not roll back state, so every fallible operation returns
`Except (GSErrKind × GSState) …`: the error carries the strategy state as it
stands at the moment of the raise.
-/

namespace AxGS

/-- Arms are identified by name. -/
abbrev ArmName := String

/-- A `GeneratorRun`: an immutable record of proposed arms plus provenance
(abstracted to an id and the list of arm names). -/
structure GeneratorRun where
  id : Nat
  arms : List ArmName
deriving Repr, DecidableEq, Inhabited

/-- A `TransitionCriterion` as consumed by `GenerationStrategy` code:
its `criterion_class` string and its `continue_trial_generation` flag. -/
structure TransitionCriterion where
  criterionClass : String
  continueTrialGeneration : Bool
deriving Repr, DecidableEq

/-- Static configuration of one `GenerationNode`, as read by the strategy:
the unique `node_name` and `transition_edges`, the grouping of the node's
transition criteria by their `transition_to` target (`none` = criteria with a
null `transition_to`).  The grouping itself is computed by node code outside
this slice; the strategy consumes it as a mapping. -/
structure NodeConfig where
  nodeName : String
  transitionEdges : List (Option String × List TransitionCriterion)
deriving Repr, DecidableEq

/-- Mutable per-node state touched by the strategy:
`_should_skip`, `_previous_node_name` and the cached `_fitted_model`
(adapters abstracted to `Nat` handles). -/
structure NodeState where
  shouldSkip : Bool := false
  previousNodeName : Option String := none
  fittedModel : Option Nat := none
deriving Repr, DecidableEq

/-- The experiment, as far as the strategy reads it: its `_name` and its
metric names (used when extending pending observations). -/
structure Experiment where
  name : String
  metrics : List String
deriving Repr, DecidableEq

/-- Pending observations: a map (association list) from metric name to the
arms pending for that metric. -/
abbrev PendingObservations := List (String × List ArmName)

/-- The mutable state of a `GenerationStrategy`:
`_nodes` (static configs), per-node mutable state, `_curr` (by node name),
`_generator_runs`, `_model`, `_experiment` (by name) and `_name`. -/
structure GSState where
  nodes : List NodeConfig
  nodeStates : List (String × NodeState)
  curr : String
  generatorRuns : List GeneratorRun
  model : Option Nat
  experimentName : Option String
  name : String
deriving Repr, DecidableEq

/-- Kinds of Python exceptions raised by the strategy code. -/
inductive GSErrKind
  | dataRequired
  | gsCompleted
  | unsupported
  | valueError
  | userInputError
  | keyError
  | indexError
  | assertionError
  | attributeError
deriving Repr, DecidableEq

/-- Result of one call into the external `GenerationNode.gen`:
raise `DataRequiredError`, return `None` (node skipped), or return a run. -/
inductive NodeGenResult
  | dataRequired
  | skip
  | run (gr : GeneratorRun)
deriving Repr, DecidableEq

/-- Behaviour of one call to the external
`should_transition_to_next_node(raise_data_required_error=True)`:
either it raises `DataRequiredError` or it returns `(move, transition_to)`. -/
inductive StnResult
  | raiseDR
  | ans (move : Bool) (target : Option String)
deriving Repr, DecidableEq

/-- Oracle answers consumed during ONE iteration of the multi-node loop in
`_gen_with_multiple_nodes`: the loop-top `should_transition_to_next_node`
result, the result of the same call inside `_maybe_transition_to_next_node`,
the per-node `is_completed` flags read by `optimization_complete` there, the
node's `gen` result, the node's `_fitted_model` after `gen` returns, and the
`should_transition_to_next_node` result inside
`_should_continue_gen_for_trial`. -/
structure IterEnv where
  stnTop : Bool × Option String
  stnTrans : StnResult
  completedAtTrans : List Bool
  genResult : NodeGenResult
  fittedAfterGen : Option Nat
  stnCont : Bool × Option String
deriving Repr, DecidableEq

/-- Oracle answers for one full call to `_gen_with_multiple_nodes`:
the per-node `is_completed` flags read by the entry-time
`optimization_complete` check, then one `IterEnv` per loop iteration. -/
structure TrialEnv where
  completedAtEntry : List Bool
  iters : List IterEnv
deriving Repr, DecidableEq

/-- Embeds `GenerationStrategy.optimization_complete`:
`all(node.is_completed for node in self._nodes)`, over the oracle-supplied
`is_completed` flags (one per node of the strategy). -/
def optimization_complete (completed : List Bool) : Bool :=
  completed.all (fun b => b)

/-- Embeds the `GenerationStrategy.experiment` setter: keep the new experiment if none
was set or the names agree, else raise `ValueError`. -/
def set_experiment (st : GSState) (exp : Experiment) :
    Except (GSErrKind × GSState) GSState :=
  match st.experimentName with
  | none => .ok { st with experimentName := some exp.name }
  | some n =>
      if exp.name = n then .ok { st with experimentName := some exp.name }
      else .error (.valueError, st)

/-- Update the mutable state of the node called `nm` (no-op when absent,
matching the fact that in Python the attribute write happens on a node
object that always exists). -/
def setNodeState (st : GSState) (nm : String) (f : NodeState → NodeState) :
    GSState :=
  { st with
    nodeStates := st.nodeStates.map (fun p => if p.1 == nm then (p.1, f p.2) else p) }

/-- The `for node in self._nodes: if node.node_name == next_node: …` loop at
the end of `_maybe_transition_to_next_node`: move `_curr` and clear `_model`
when a node with the target name exists, otherwise change nothing. -/
def moveCurrTo (st : GSState) (nxt : String) : GSState :=
  if st.nodes.any (fun n => n.nodeName == nxt) then
    { st with curr := nxt, model := none }
  else st

/-- Embeds `GenerationStrategy._maybe_transition_to_next_node`: consult the node's
transition answer; on a move, raise `GenerationStrategyCompleted` when all
nodes are completed, else resolve the target (falling back to the positional
successor — `ValueError`/`IndexError` faithfully modelled for the fallback
lookups) and move `_curr`, clearing `_model`.  Returns whether a move
happened. -/
def maybe_transition_to_next_node (st : GSState) (stn : StnResult)
    (completed : List Bool) (raiseDRError : Bool) :
    Except (GSErrKind × GSState) (GSState × Bool) :=
  match stn with
  | .raiseDR =>
      if raiseDRError then .error (.dataRequired, st)
      else .ok (st, false)
  | .ans move target =>
      if move then
        if optimization_complete completed then .error (.gsCompleted, st)
        else
          match target with
          | some nxt => .ok (moveCurrTo st nxt, true)
          | none =>
              match st.nodes.findIdx? (fun n => n.nodeName == st.curr) with
              | none => .error (.valueError, st)
              | some i =>
                  match st.nodes[i + 1]? with
                  | none => .error (.indexError, st)
                  | some cfg => .ok (moveCurrTo st cfg.nodeName, true)
      else .ok (st, false)

/-- Append `arms` to the entry for metric `m` (creating it if absent),
keeping entry order — the content effect of one in-place dict update. -/
def upsertAppend (p : PendingObservations) (m : String) (arms : List ArmName) :
    PendingObservations :=
  if p.any (fun q => q.1 == m) then
    p.map (fun q => if q.1 == m then (q.1, q.2 ++ arms) else q)
  else p ++ [(m, arms)]

/-- Modelled from the spec: `extend_pending_observations` (from
`ax.core.utils`, outside this slice) extends the pending-observations map in
place with the generator run's arms, per metric of the experiment, "so
subsequent nodes in the same loop avoid re-suggesting them".  The returned
value is the content of the (mutated) dict after the call. -/
def extend_pending_observations (exp : Experiment) (p : PendingObservations)
    (gr : GeneratorRun) : PendingObservations :=
  exp.metrics.foldl (fun acc m => upsertAppend acc m gr.arms) p

/-- Embeds `GenerationStrategy._should_continue_gen_for_trial`: continue generating
for the same trial only if the current node wants to transition and every
criterion on the edge to the announced next node has
`continue_trial_generation` set (`assert next_node is not None` and the
`transition_edges[next_node]` lookup modelled faithfully). -/
def should_continue_gen_for_trial (st : GSState) (stn : Bool × Option String) :
    Except (GSErrKind × GSState) Bool :=
  if stn.1 = false then .ok false
  else
    match stn.2 with
    | none => .error (.assertionError, st)
    | some nextNode =>
        match st.nodes.find? (fun n => n.nodeName == st.curr) with
        | none => .error (.keyError, st)
        | some cfg =>
            match cfg.transitionEdges.find? (fun ed => ed.1 == some nextNode) with
            | none => .error (.keyError, st)
            | some ed => .ok (ed.2.all (fun tc => tc.continueTrialGeneration))

/-- Set the current node's `_fitted_model` (mutated by the node's `gen`) and
then `self._model = self._curr._fitted_model` (line after the `gen` call). -/
def setFitted (st : GSState) (v : Option Nat) : GSState :=
  { setNodeState st st.curr (fun ns => { ns with fittedModel := v }) with model := v }

/-- Embeds `self._generator_runs.append(gr)`. -/
def appendRun (st : GSState) (gr : GeneratorRun) : GSState :=
  { st with generatorRuns := st.generatorRuns ++ [gr] }

/-- The `node_to_gen_from._previous_node_name = node_to_gen_from_name` and
`node_to_gen_from._should_skip = False` writes performed when the loop-top
check announces a transition. -/
def resetOnTransition (e : IterEnv) (st : GSState) (nm : String) : GSState :=
  if e.stnTop.1 then
    setNodeState st nm
      (fun ns => { ns with previousNodeName := some nm, shouldSkip := false })
  else st

/-- Outcome of one iteration of the `while continue_gen_for_trial` loop. -/
inductive StepOut
  | err (e : GSErrKind × GSState)
  | done (st : GSState) (pending : PendingObservations) (grs : List GeneratorRun)
  | next (st : GSState) (pending : PendingObservations) (grs : List GeneratorRun)
deriving Repr, DecidableEq

/-- The part of one loop iteration before the node's `gen` call:
read the loop-top transition check, look up `nodes_dict[name]` (`KeyError`
when absent or `None`), reset the resolved node's `_previous_node_name` and
`_should_skip` when a transition is announced, then run
`_maybe_transition_to_next_node` (with `raise_data_required_error=True`). -/
def genStepPre (e : IterEnv) (st : GSState) :
    Except (GSErrKind × GSState) GSState :=
  match e.stnTop.2 with
  | none => .error (.keyError, st)
  | some nm =>
      if st.nodes.any (fun n => n.nodeName == nm) then
        match maybe_transition_to_next_node (resetOnTransition e st nm)
            e.stnTrans e.completedAtTrans true with
        | .error er => .error er
        | .ok (st2, _transitioned) => .ok st2
      else .error (.keyError, st)

/-- One iteration of the multi-node loop body in
`_gen_with_multiple_nodes` (lines 764-809): the pre-`gen` part, then the
node's `gen` result: `DataRequiredError` is re-raised when no run was
produced yet, else the loop breaks returning the partial list; a `None`
result (`_should_skip`) continues the loop; a produced run is appended to
the strategy history and the accumulator, pending observations are extended,
and `_should_continue_gen_for_trial` decides whether to keep generating. -/
def genStep (exp : Experiment) (e : IterEnv) (st : GSState)
    (pending : PendingObservations) (grs : List GeneratorRun) : StepOut :=
  match genStepPre e st with
  | .error er => .err er
  | .ok st2 =>
      match e.genResult with
      | .dataRequired =>
          if grs.isEmpty then .err (.dataRequired, st2)
          else .done st2 pending grs
      | .skip => .next (setFitted st2 e.fittedAfterGen) pending grs
      | .run gr =>
          match should_continue_gen_for_trial
              (appendRun (setFitted st2 e.fittedAfterGen) gr) e.stnCont with
          | .error er => .err er
          | .ok true =>
              .next (appendRun (setFitted st2 e.fittedAfterGen) gr)
                (extend_pending_observations exp pending gr) (grs ++ [gr])
          | .ok false =>
              .done (appendRun (setFitted st2 e.fittedAfterGen) gr)
                (extend_pending_observations exp pending gr) (grs ++ [gr])

/-- The `while continue_gen_for_trial` loop, driven by the per-iteration
oracle list (which also serves as fuel: `none` = the supplied environment
ran out before the loop finished, i.e. no normal return is modelled). -/
def genLoop (exp : Experiment) :
    List IterEnv → GSState → PendingObservations → List GeneratorRun →
    Option (Except (GSErrKind × GSState)
      (GSState × PendingObservations × List GeneratorRun))
  | [], _, _, _ => none
  | e :: rest, st, pending, grs =>
      match genStep exp e st pending grs with
      | .err er => some (.error er)
      | .done st2 p2 g2 => some (.ok (st2, p2, g2))
      | .next st2 p2 g2 => genLoop exp rest st2 p2 g2

/-- Embeds `GenerationStrategy._validate_arms_per_node`: when `arms_per_node` is
given, every node name must appear among its keys, else `UserInputError`. -/
def validate_arms_per_node (st : GSState) (apn : Option (List (String × Nat))) :
    Except (GSErrKind × GSState) Unit :=
  match apn with
  | none => .ok ()
  | some m =>
      if st.nodes.all (fun n => m.any (fun p => p.1 == n.nodeName)) then .ok ()
      else .error (.userInputError, st)

/-- Embeds `GenerationStrategy._gen_with_multiple_nodes`: set `_experiment`, raise
`GenerationStrategyCompleted` when `optimization_complete`, default the
pending map, run the experiment setter and `_validate_arms_per_node`, then
enter the multi-node loop with an empty accumulator.  The pending map passed
in IS the caller's dict (the loop mutates it in place); its final content is
the second component of a normal result. -/
def gen_with_multiple_nodes (exp : Experiment) (st : GSState)
    (pendingArg : Option PendingObservations)
    (apn : Option (List (String × Nat))) (te : TrialEnv) :
    Option (Except (GSErrKind × GSState)
      (GSState × PendingObservations × List GeneratorRun)) :=
  if optimization_complete te.completedAtEntry then
    some (.error (.gsCompleted, { st with experimentName := some exp.name }))
  else
    match set_experiment { st with experimentName := some exp.name } exp with
    | .error er => some (.error er)
    | .ok st1 =>
        match validate_arms_per_node st1 apn with
        | .error er => some (.error er)
        | .ok _ => genLoop exp te.iters st1 (pendingArg.getD []) []

/-- Embeds `GenerationStrategy.gen`: bind the experiment via the setter, run the
multi-node loop, raise `UnsupportedError` when it produced more than one
generator run, and return the first run (`gr[0]`; `IndexError` when the list
is empty).  A normal result also carries the final content of the caller's
pending-observations dict, which `gen` hands to the loop unprotected. -/
def gen (exp : Experiment) (st : GSState)
    (pendingArg : Option PendingObservations) (te : TrialEnv) :
    Option (Except (GSErrKind × GSState)
      (GSState × PendingObservations × GeneratorRun)) :=
  match set_experiment st exp with
  | .error er => some (.error er)
  | .ok st1 =>
      match gen_with_multiple_nodes exp st1 pendingArg none te with
      | none => none
      | some (.error er) => some (.error er)
      | some (.ok (st2, p2, grs)) =>
          if grs.length > 1 then some (.error (.unsupported, st2))
          else
            match grs with
            | [] => some (.error (.indexError, st2))
            | g :: _ => some (.ok (st2, p2, g))

/-- Oracle answers for one call to
`gen_for_multiple_trials_with_multiple_models`: the current node's
`new_trial_limit(raise_generation_errors=False)` answer, the content of
`extract_pending_observations(experiment) or {}` (used only when the caller
passes no pending map), and one `TrialEnv` per single-trial iteration. -/
structure MultiEnv where
  newTrialLimit : Int
  extractedPending : PendingObservations
  trials : List TrialEnv
deriving Repr, DecidableEq

/-- The trial-count computation of
`gen_for_multiple_trials_with_multiple_models`: `max(num_trials, 1)` when the
limit is `-1` (unlimited), else `max(min(num_trials, limit), 1)`. -/
def clampedNumTrials (numTrials limit : Int) : Int :=
  if limit = -1 then max numTrials 1 else max (min numTrials limit) 1

/-- The `for _i in range(num_trials)` loop of
`gen_for_multiple_trials_with_multiple_models`: each iteration runs
`_gen_with_multiple_nodes` on the SAME evolving pending map and appends its
run list; `first_generation_in_multi` is `len(acc) < 1`. -/
def genTrialsLoop (exp : Experiment) (apn : Option (List (String × Nat))) :
    Nat → List TrialEnv → GSState → PendingObservations →
    List (List GeneratorRun) →
    Option (Except (GSErrKind × GSState) (GSState × List (List GeneratorRun)))
  | 0, _, st, _, acc => some (.ok (st, acc))
  | Nat.succ k, tes, st, pending, acc =>
      match tes with
      | [] => none
      | te :: rest =>
          match gen_with_multiple_nodes exp st (some pending) apn te with
          | none => none
          | some (.error er) => some (.error er)
          | some (.ok (st2, p2, grs)) =>
              genTrialsLoop exp apn k rest st2 p2 (acc ++ [grs])

/-- Embeds `GenerationStrategy.gen_for_multiple_trials_with_multiple_models`:
bind the experiment, deep-copy the caller's pending map (or extract one from
the experiment), clamp the requested trial count against the current node's
`new_trial_limit`, and run the per-trial loop on the copy.  The second
component of the result is the final content of the CALLER'S dict, which the
deep copy leaves untouched on every path. -/
def gen_for_multiple_trials_with_multiple_models (exp : Experiment)
    (st : GSState) (pendingArg : Option PendingObservations) (numTrials : Int)
    (apn : Option (List (String × Nat))) (env : MultiEnv) :
    Option ((Except (GSErrKind × GSState) (GSState × List (List GeneratorRun)))
      × PendingObservations) :=
  match set_experiment st exp with
  | .error er => some (.error er, pendingArg.getD [])
  | .ok st1 =>
      match genTrialsLoop exp apn (clampedNumTrials numTrials env.newTrialLimit).toNat
          env.trials st1
          (match pendingArg with
           | none => env.extractedPending
           | some p => p) [] with
      | none => none
      | some r => some (r, pendingArg.getD [])

/-! ### Construction-time node-graph validation
(`GenerationStrategy._validate_and_set_node_graph`). -/

/-- Errors raised during `_validate_and_set_node_graph`:
`GenerationStrategyMisconfiguredException` variants plus the `IndexError`
from `nodes[0]` on an empty list. -/
inductive ValidateErr
  | duplicateNodeNames
  | nullTransitionTo
  | unknownTransitionTarget
  | inconsistentContinue
  | indexError
deriving Repr, DecidableEq

/-- Whether a `ValidateErr` is a `GenerationStrategyMisconfiguredException`. -/
def ValidateErr.isMisconfigured : ValidateErr → Bool
  | .indexError => false
  | _ => true

/-- Python's substring test `"MaxGenerationParallelism" in s`, expressed via
`String.splitOn` (the split has more than one piece iff the pattern occurs). -/
def containsMaxPar (s : String) : Bool :=
  (s.splitOn "MaxGenerationParallelism").length != 1

/-- The first validation loop: collect node names in order, raising on a
duplicate. -/
def collectNodeNames : List NodeConfig → List String →
    Except ValidateErr (List String)
  | [], acc => .ok acc
  | n :: rest, acc =>
      if n.nodeName ∈ acc then .error .duplicateNodeNames
      else collectNodeNames rest (acc ++ [n.nodeName])

/-- The per-edge checks of the second validation loop: a null-target edge may
carry only criteria whose `criterion_class` contains
`"MaxGenerationParallelism"`; a named target must exist among the node names;
all criteria on one named edge must agree on `continue_trial_generation`. -/
def checkEdge (names : List String)
    (e : Option String × List TransitionCriterion) :
    Except ValidateErr Unit :=
  match e.1 with
  | none =>
      match e.2.find? (fun tc => !(containsMaxPar tc.criterionClass)) with
      | some _ => .error .nullTransitionTo
      | none => .ok ()
  | some nxt =>
      if !(names.contains nxt) then .error .unknownTransitionTarget
      else if (e.2.any (fun tc => tc.continueTrialGeneration))
          && (e.2.any (fun tc => !tc.continueTrialGeneration)) then
        .error .inconsistentContinue
      else .ok ()

/-- Run `checkEdge` over all transition edges of one node, in order. -/
def checkEdges (names : List String) :
    List (Option String × List TransitionCriterion) → Except ValidateErr Unit
  | [] => .ok ()
  | e :: rest =>
      match checkEdge names e with
      | .error er => .error er
      | .ok _ => checkEdges names rest

/-- Run the edge checks over all nodes, in order. -/
def checkAllNodes (names : List String) : List NodeConfig →
    Except ValidateErr Unit
  | [] => .ok ()
  | n :: rest =>
      match checkEdges names n.transitionEdges with
      | .error er => .error er
      | .ok _ => checkAllNodes names rest

/-- Embeds `GenerationStrategy._validate_and_set_node_graph`: collect (and
uniqueness-check) node names, check every transition edge, then set `_curr`
to the first node (whose name is returned; `IndexError` on an empty list). -/
def validate_and_set_node_graph (nodes : List NodeConfig) :
    Except ValidateErr String :=
  match collectNodeNames nodes [] with
  | .error er => .error er
  | .ok names =>
      match checkAllNodes names nodes with
      | .error er => .error er
      | .ok _ =>
          match nodes with
          | [] => .error .indexError
          | n :: _ => .ok n.nodeName

/-! ### The `name` attribute of the `GenerationStrategy` class body
(lines 164-180 of the source): a property getter, then a setter added via
`@name.setter`, then a second `@property` re-definition carrying only a
getter.  We model Python's class-body evaluation: each decorator application
rebinds the class attribute `name`. -/

/-- A Python `property` object, abstracted to which accessors it carries. -/
structure PyProperty where
  hasGetter : Bool
  hasSetter : Bool
deriving Repr, DecidableEq

/-- One binding of the class attribute `name` in the class body:
`@property def name` creates a fresh getter-only property;
`@name.setter def name` takes the current binding and returns a copy with
the setter added. -/
inductive NameBodyStep
  | defPropertyGetter
  | addSetterToCurrent
deriving Repr, DecidableEq

/-- Evaluate one class-body binding of `name`. -/
def applyNameStep : Option PyProperty → NameBodyStep → Option PyProperty
  | _, .defPropertyGetter => some { hasGetter := true, hasSetter := false }
  | some p, .addSetterToCurrent => some { p with hasSetter := true }
  | none, .addSetterToCurrent => none

/-- The sequence of `name` bindings in the `GenerationStrategy` class body:
getter (line 164), setter added (line 172), getter-only re-definition
(line 177). -/
def nameClassBody : List NameBodyStep :=
  [.defPropertyGetter, .addSetterToCurrent, .defPropertyGetter]

/-- The final value of the class attribute `name` after class-body
evaluation. -/
def namePropertyFinal : Option PyProperty :=
  nameClassBody.foldl applyNameStep none

/-- Attribute assignment `strategy.name = v` under Python's descriptor
protocol: succeeds through the property's setter when it has one, raises
`AttributeError` when the property has no setter. -/
def setName (st : GSState) (v : String) : Except GSErrKind GSState :=
  match namePropertyFinal with
  | some p =>
      if p.hasSetter then .ok { st with name := v }
      else .error .attributeError
  | none => .error .attributeError

/-! ### Concrete fixtures used by witnesses and counterexamples. -/

/-- A criterion on the edge from node `A` to node `B` that continues trial
generation. -/
def tcAB : TransitionCriterion :=
  { criterionClass := "MinTrials", continueTrialGeneration := true }

/-- Node `A`, with one edge to `B`. -/
def nodeA : NodeConfig :=
  { nodeName := "A", transitionEdges := [(some "B", [tcAB])] }

/-- Node `B`, with no outgoing edges. -/
def nodeB : NodeConfig :=
  { nodeName := "B", transitionEdges := [] }

/-- A two-metric-free experiment with a single metric `m`. -/
def exp0 : Experiment := { name := "e0", metrics := ["m"] }

/-- A concrete generator run proposing one arm. -/
def gr0 : GeneratorRun := { id := 0, arms := ["a0"] }

/-- A second concrete generator run. -/
def gr1 : GeneratorRun := { id := 1, arms := ["a1"] }

/-- A fresh two-node strategy state sitting on node `A`. -/
def st0 : GSState :=
  { nodes := [nodeA, nodeB]
    nodeStates := [("A", {}), ("B", {})]
    curr := "A"
    generatorRuns := []
    model := none
    experimentName := none
    name := "gs" }

/-- One loop iteration that produces `gr0` from the current node and then
stops generating for the trial. -/
def iterOk : IterEnv :=
  { stnTop := (false, some "A")
    stnTrans := .ans false none
    completedAtTrans := [false, false]
    genResult := .run gr0
    fittedAfterGen := some 1
    stnCont := (false, none) }

/-- A single-iteration trial environment around `iterOk`. -/
def trialOk : TrialEnv := { completedAtEntry := [false, false], iters := [iterOk] }

/-- A loop iteration that produces `gr0` and asks to continue generating for
the same trial (edge `A → B` has `continue_trial_generation = true`). -/
def iterContinue : IterEnv :=
  { stnTop := (false, some "A")
    stnTrans := .ans false none
    completedAtTrans := [false, false]
    genResult := .run gr0
    fittedAfterGen := some 1
    stnCont := (true, some "B") }

/-- A loop iteration that transitions `A → B`, produces `gr1` from `B`, and
stops. -/
def iterSecond : IterEnv :=
  { stnTop := (true, some "B")
    stnTrans := .ans true (some "B")
    completedAtTrans := [false, false]
    genResult := .run gr1
    fittedAfterGen := some 2
    stnCont := (false, none) }

/-- A two-iteration trial environment in which two nodes contribute one
generator run each. -/
def trialTwo : TrialEnv :=
  { completedAtEntry := [false, false], iters := [iterContinue, iterSecond] }

/-- A loop iteration in which the node announces a transition `A → B` and the
post-transition node's `gen` raises `DataRequiredError`. -/
def iterTransDR : IterEnv :=
  { stnTop := (true, some "A")
    stnTrans := .ans true (some "B")
    completedAtTrans := [false, false]
    genResult := .dataRequired
    fittedAfterGen := none
    stnCont := (false, none) }

/-- A strategy state with a cached model and node `A`'s skip flag set, used
to exhibit partial-state leakage on exceptions. -/
def stLeak : GSState :=
  { nodes := [nodeA, nodeB]
    nodeStates := [("A", { shouldSkip := true }), ("B", {})]
    curr := "A"
    generatorRuns := []
    model := some 7
    experimentName := none
    name := "gs" }

/-- The three misconfiguration conditions named for transition edges, for
one edge of a node, given the strategy's node names: a named target absent
from the strategy, criteria on one named edge disagreeing on
`continue_trial_generation`, or a non-max-parallelism criterion on a
null-target edge. -/
def edgeViolation (names : List String)
    (e : Option String × List TransitionCriterion) : Prop :=
  (∃ t, e.1 = some t ∧ names.contains t = false)
  ∨ (∃ t, e.1 = some t
      ∧ (e.2.any fun tc => tc.continueTrialGeneration) = true
      ∧ (e.2.any fun tc => !tc.continueTrialGeneration) = true)
  ∨ (e.1 = none ∧ ∃ tc ∈ e.2, containsMaxPar tc.criterionClass = false)

/-- The trial count the claim predicts for
`gen_for_multiple_trials_with_multiple_models`, following the claim's words
(for refutation): the requested `num_trials`, clamped (only) to the budget
when the budget is finite. -/
def claimedTrialCount (numTrials limit : Int) : Int :=
  if limit = -1 then numTrials else min numTrials limit


/-- State `st0` with the experiment bound, as produced by the experiment setter. -/
def stA1 : GSState := { st0 with experimentName := some "e0" }

/-- The state after `gen exp0 st0 none trialOk`: `gr0` recorded, node `A`'s
fitted model cached. -/
def stOkAfter : GSState :=
  { nodes := [nodeA, nodeB]
    nodeStates := [("A", { fittedModel := some 1 }), ("B", {})]
    curr := "A"
    generatorRuns := [gr0]
    model := some 1
    experimentName := some "e0"
    name := "gs" }

/-- The state after the two-node loop of `trialTwo`: both runs recorded,
`_curr` moved to `B`. -/
def stTwoAfter : GSState :=
  { nodes := [nodeA, nodeB]
    nodeStates := [("A", { fittedModel := some 1 }),
      ("B", { previousNodeName := some "B", fittedModel := some 2 })]
    curr := "B"
    generatorRuns := [gr0, gr1]
    model := some 2
    experimentName := some "e0"
    name := "gs" }


/-- State after the pre-gen part of `iterTransDR` run from `st0`: node `A`
reset (previous-node-name recorded), `_curr` moved to `B`. -/
def stPre0 : GSState :=
  { st0 with
    nodeStates := [("A", { previousNodeName := some "A" }), ("B", {})]
    curr := "B" }

/-- State carried by the `DataRequiredError` when the loop runs
`iterTransDR` from `stLeak`: skip flag reset, `_curr` moved, model cleared. -/
def stLeakLoopDR : GSState :=
  { nodes := [nodeA, nodeB]
    nodeStates := [("A", { previousNodeName := some "A" }), ("B", {})]
    curr := "B"
    generatorRuns := []
    model := none
    experimentName := none
    name := "gs" }

/-- Like `stLeakLoopDR` but with the experiment bound, as carried by the
error when the full generation call is entered from `stLeak`. -/
def stLeakCallDR : GSState := { stLeakLoopDR with experimentName := some "e0" }

/-- State after two multi-trial iterations of `trialOk`: `gr0` recorded
twice. -/
def stOk2After : GSState := { stOkAfter with generatorRuns := [gr0, gr0] }

/-! ### Helper lemmas about the loop. -/

@[simp]
theorem setNodeState_generatorRuns (st : GSState) (nm : String)
    (f : NodeState → NodeState) :
    (setNodeState st nm f).generatorRuns = st.generatorRuns := rfl

@[simp]
theorem setFitted_generatorRuns (st : GSState) (v : Option Nat) :
    (setFitted st v).generatorRuns = st.generatorRuns := rfl

@[simp]
theorem moveCurrTo_generatorRuns (st : GSState) (n : String) :
    (moveCurrTo st n).generatorRuns = st.generatorRuns := by
  unfold moveCurrTo
  split <;> rfl

theorem maybe_transition_ok_generatorRuns {st : GSState} {stn : StnResult}
    {c : List Bool} {r : Bool} {st2 : GSState} {b : Bool}
    (h : maybe_transition_to_next_node st stn c r = .ok (st2, b)) :
    st2.generatorRuns = st.generatorRuns := by
  unfold maybe_transition_to_next_node at h
  repeat' split at h
  all_goals simp_all
  all_goals obtain ⟨h1, h2⟩ := h
  all_goals subst h1
  all_goals simp

theorem maybe_transition_error_dataRequired {st : GSState} {stn : StnResult}
    {c : List Bool} {r : Bool} {st' : GSState}
    (h : maybe_transition_to_next_node st stn c r
      = .error (.dataRequired, st')) :
    stn = .raiseDR ∧ st' = st := by
  unfold maybe_transition_to_next_node at h
  repeat' split at h
  all_goals simp_all

@[simp]
theorem resetOnTransition_generatorRuns (e : IterEnv) (st : GSState)
    (nm : String) :
    (resetOnTransition e st nm).generatorRuns = st.generatorRuns := by
  unfold resetOnTransition
  split <;> rfl

@[simp]
theorem appendRun_generatorRuns (st : GSState) (gr : GeneratorRun) :
    (appendRun st gr).generatorRuns = st.generatorRuns ++ [gr] := rfl

theorem genStepPre_ok_generatorRuns {e : IterEnv} {st st2 : GSState}
    (h : genStepPre e st = .ok st2) :
    st2.generatorRuns = st.generatorRuns := by
  unfold genStepPre at h
  split at h
  · simp_all
  · split at h
    · split at h
      · simp_all
      · rename_i st2' b heq
        simp only [Except.ok.injEq] at h
        subst h
        rw [maybe_transition_ok_generatorRuns heq]
        simp
    · simp_all

theorem genStepPre_error_dataRequired {e : IterEnv} {st st' : GSState}
    (h : genStepPre e st = .error (.dataRequired, st')) :
    e.stnTrans = .raiseDR := by
  unfold genStepPre at h
  split at h
  · simp_all
  · split at h
    · split at h
      · rename_i er heq
        simp only [Except.error.injEq] at h
        rw [h] at heq
        exact (maybe_transition_error_dataRequired heq).1
      · simp_all
    · simp_all

theorem should_continue_error_kind {st : GSState} {stn : Bool × Option String}
    {k : GSErrKind} {st' : GSState}
    (h : should_continue_gen_for_trial st stn = .error (k, st')) :
    (k = .assertionError ∨ k = .keyError) ∧ st' = st := by
  unfold should_continue_gen_for_trial at h
  repeat' split at h
  all_goals simp_all

theorem set_experiment_ok_generatorRuns {st st' : GSState} {exp : Experiment}
    (h : set_experiment st exp = .ok st') :
    st'.generatorRuns = st.generatorRuns := by
  unfold set_experiment at h
  repeat' split at h
  all_goals simp_all
  all_goals rw [← h]

theorem genStep_err_dataRequired {exp : Experiment} {e : IterEnv}
    {st : GSState} {p : PendingObservations} {grs : List GeneratorRun}
    {st' : GSState}
    (hnd : e.stnTrans ≠ .raiseDR)
    (h : genStep exp e st p grs = .err (.dataRequired, st')) :
    grs = [] ∧ st'.generatorRuns = st.generatorRuns := by
  unfold genStep at h
  split at h
  · rename_i er heq
    simp only [StepOut.err.injEq] at h
    rw [h] at heq
    exact absurd (genStepPre_error_dataRequired heq) hnd
  · rename_i st2 heq
    split at h
    · split at h
      · rename_i hemp
        simp only [StepOut.err.injEq, Prod.mk.injEq] at h
        refine ⟨by simpa using hemp, ?_⟩
        rw [← h.2]
        exact genStepPre_ok_generatorRuns heq
      · simp_all
    · simp_all
    · split at h
      · rename_i er2 heq2
        simp only [StepOut.err.injEq] at h
        rw [h] at heq2
        rcases (should_continue_error_kind heq2).1 with h1 | h1 <;> simp_all
      · simp_all
      · simp_all

theorem genStep_done {exp : Experiment} {e : IterEnv} {st : GSState}
    {p : PendingObservations} {grs : List GeneratorRun} {st2 : GSState}
    {p2 : PendingObservations} {g2 : List GeneratorRun}
    (h : genStep exp e st p grs = .done st2 p2 g2) :
    g2 ≠ [] ∧ ∃ l, g2 = grs ++ l ∧
      st2.generatorRuns = st.generatorRuns ++ l := by
  unfold genStep at h
  split at h
  · simp_all
  · rename_i stp heq
    split at h
    · split at h
      · simp_all
      · rename_i hemp
        simp only [StepOut.done.injEq] at h
        obtain ⟨h1, h2, h3⟩ := h
        subst h1; subst h2; subst h3
        refine ⟨by simpa using hemp, [], by simp, ?_⟩
        simpa using genStepPre_ok_generatorRuns heq
    · simp_all
    · rename_i gr hgr
      split at h
      · simp_all
      · simp_all
      · simp only [StepOut.done.injEq] at h
        obtain ⟨h1, h2, h3⟩ := h
        subst h1; subst h2; subst h3
        refine ⟨by simp, [gr], by simp, ?_⟩
        simp [genStepPre_ok_generatorRuns heq]

theorem genStep_next {exp : Experiment} {e : IterEnv} {st : GSState}
    {p : PendingObservations} {grs : List GeneratorRun} {st2 : GSState}
    {p2 : PendingObservations} {g2 : List GeneratorRun}
    (h : genStep exp e st p grs = .next st2 p2 g2) :
    ∃ l, g2 = grs ++ l ∧ st2.generatorRuns = st.generatorRuns ++ l := by
  unfold genStep at h
  split at h
  · simp_all
  · rename_i stp heq
    split at h
    · split at h <;> simp_all
    · simp only [StepOut.next.injEq] at h
      obtain ⟨h1, h2, h3⟩ := h
      subst h1; subst h2; subst h3
      refine ⟨[], by simp, ?_⟩
      simpa using genStepPre_ok_generatorRuns heq
    · rename_i gr hgr
      split at h
      · simp_all
      · simp only [StepOut.next.injEq] at h
        obtain ⟨h1, h2, h3⟩ := h
        subst h1; subst h2; subst h3
        refine ⟨[gr], by simp, ?_⟩
        simp [genStepPre_ok_generatorRuns heq]
      · simp_all

theorem genLoop_ok_generatorRuns {exp : Experiment} {env : List IterEnv} :
    ∀ {st : GSState} {p : PendingObservations} {grs : List GeneratorRun}
      {st' : GSState} {p' : PendingObservations} {grs' : List GeneratorRun},
    genLoop exp env st p grs = some (.ok (st', p', grs')) →
    ∃ l, grs' = grs ++ l ∧ st'.generatorRuns = st.generatorRuns ++ l := by
  induction env with
  | nil => intro st p grs st' p' grs' h; simp [genLoop] at h
  | cons e rest ih =>
      intro st p grs st' p' grs' h
      rw [genLoop] at h
      split at h
      · simp_all
      · rename_i st2 p2 g2 heq
        simp only [Option.some.injEq, Except.ok.injEq, Prod.mk.injEq] at h
        obtain ⟨h1, h2, h3⟩ := h
        subst h1; subst h2; subst h3
        obtain ⟨hne, l, hg, hr⟩ := genStep_done heq
        exact ⟨l, hg, hr⟩
      · rename_i st2 p2 g2 heq
        obtain ⟨l2, hg2, hr2⟩ := ih h
        obtain ⟨l1, hg1, hr1⟩ := genStep_next heq
        refine ⟨l1 ++ l2, ?_, ?_⟩
        · rw [hg2, hg1, List.append_assoc]
        · rw [hr2, hr1, List.append_assoc]

theorem genLoop_ok_ne_nil {exp : Experiment} {env : List IterEnv} :
    ∀ {st : GSState} {p : PendingObservations} {grs : List GeneratorRun}
      {st' : GSState} {p' : PendingObservations} {grs' : List GeneratorRun},
    genLoop exp env st p grs = some (.ok (st', p', grs')) → grs' ≠ [] := by
  induction env with
  | nil => intro st p grs st' p' grs' h; simp [genLoop] at h
  | cons e rest ih =>
      intro st p grs st' p' grs' h
      rw [genLoop] at h
      split at h
      · simp_all
      · rename_i st2 p2 g2 heq
        simp only [Option.some.injEq, Except.ok.injEq, Prod.mk.injEq] at h
        obtain ⟨h1, h2, h3⟩ := h
        subst h1; subst h2; subst h3
        exact (genStep_done heq).1
      · exact ih h

theorem genLoop_error_dataRequired {exp : Experiment} {env : List IterEnv} :
    ∀ {st : GSState} {p : PendingObservations} {grs : List GeneratorRun}
      {st' : GSState},
    (∀ e ∈ env, e.stnTrans ≠ StnResult.raiseDR) →
    genLoop exp env st p grs = some (.error (.dataRequired, st')) →
    grs = [] ∧ st'.generatorRuns = st.generatorRuns := by
  induction env with
  | nil => intro st p grs st' _ h; simp [genLoop] at h
  | cons e rest ih =>
      intro st p grs st' hnd h
      rw [genLoop] at h
      split at h
      · rename_i er heq
        simp only [Option.some.injEq, Except.error.injEq] at h
        rw [h] at heq
        exact genStep_err_dataRequired (hnd e (by simp)) heq
      · simp_all
      · rename_i st2 p2 g2 heq
        obtain ⟨h2, hr2⟩ := ih (fun x hx => hnd x (by simp [hx])) h
        subst h2
        obtain ⟨l1, hg1, hr1⟩ := genStep_next heq
        obtain ⟨hg, hl⟩ := List.append_eq_nil.mp hg1.symm
        subst hg; subst hl
        simp only [List.append_nil] at hr1
        exact ⟨rfl, by rw [hr2, hr1]⟩

theorem genLoop_cons_dataRequired_propagates {exp : Experiment} {e : IterEnv}
    {rest : List IterEnv} {st st2 : GSState} {p : PendingObservations}
    (hpre : genStepPre e st = .ok st2)
    (hdr : e.genResult = NodeGenResult.dataRequired) :
    genLoop exp (e :: rest) st p [] = some (.error (.dataRequired, st2)) := by
  rw [genLoop]
  unfold genStep
  rw [hpre, hdr]
  simp

theorem genLoop_cons_dataRequired_swallow {exp : Experiment} {e : IterEnv}
    {rest : List IterEnv} {st st2 : GSState} {p : PendingObservations}
    {grs : List GeneratorRun}
    (hpre : genStepPre e st = .ok st2)
    (hdr : e.genResult = NodeGenResult.dataRequired)
    (hne : grs ≠ []) :
    genLoop exp (e :: rest) st p grs = some (.ok (st2, p, grs)) := by
  rw [genLoop]
  unfold genStep
  rw [hpre, hdr]
  have : grs.isEmpty = false := by
    cases grs with
    | nil => exact absurd rfl hne
    | cons a l => rfl
  simp [this]

theorem gwmn_ok_generatorRuns {exp : Experiment} {st : GSState}
    {pendingArg : Option PendingObservations}
    {apn : Option (List (String × Nat))} {te : TrialEnv} {st2 : GSState}
    {p2 : PendingObservations} {grs : List GeneratorRun}
    (h : gen_with_multiple_nodes exp st pendingArg apn te
      = some (.ok (st2, p2, grs))) :
    grs ≠ [] ∧ st2.generatorRuns = st.generatorRuns ++ grs := by
  unfold gen_with_multiple_nodes at h
  split at h
  · simp_all
  · split at h
    · simp_all
    · rename_i st1 hse
      split at h
      · simp_all
      · refine ⟨genLoop_ok_ne_nil h, ?_⟩
        obtain ⟨l, hg, hr⟩ := genLoop_ok_generatorRuns h
        simp only [List.nil_append] at hg
        subst hg
        rw [hr, set_experiment_ok_generatorRuns hse]

theorem set_experiment_ok_eq {st st' : GSState} {exp : Experiment}
    (h : set_experiment st exp = .ok st') :
    st' = { st with experimentName := some exp.name } := by
  unfold set_experiment at h
  repeat' split at h
  all_goals simp_all

theorem collectNodeNames_ok {ns : List NodeConfig} :
    ∀ {acc names : List String},
    collectNodeNames ns acc = .ok names →
    names = acc ++ ns.map (fun n => n.nodeName) := by
  induction ns with
  | nil =>
      intro acc names h
      rw [collectNodeNames] at h
      simp only [Except.ok.injEq] at h
      simp [h.symm]
  | cons n rest ih =>
      intro acc names h
      rw [collectNodeNames] at h
      split at h
      · simp_all
      · rw [ih h]
        simp

theorem collectNodeNames_error {ns : List NodeConfig} :
    ∀ {acc : List String} {r : ValidateErr},
    collectNodeNames ns acc = .error r → r = .duplicateNodeNames := by
  induction ns with
  | nil => intro acc r h; rw [collectNodeNames] at h; simp_all
  | cons n rest ih =>
      intro acc r h
      rw [collectNodeNames] at h
      split at h
      · simp_all
      · exact ih h

theorem checkEdge_ok_no_violation {names : List String}
    {e : Option String × List TransitionCriterion}
    (h : checkEdge names e = .ok ()) : ¬ edgeViolation names e := by
  intro hv
  unfold checkEdge at h
  split at h
  · rename_i hnone
    split at h
    · simp_all
    · rename_i hfind
      rcases hv with ⟨t, ht, _⟩ | ⟨t, ht, _⟩ | ⟨_, tc, htc, hcp⟩
      · rw [hnone] at ht; exact Option.noConfusion ht
      · rw [hnone] at ht; exact Option.noConfusion ht
      · have := List.find?_eq_none.mp hfind tc htc
        simp only [Bool.not_eq_true'] at this
        exact this hcp
  · rename_i nxt hsome
    split at h
    · simp_all
    · rename_i hcontains
      split at h
      · simp_all
      · rename_i hagree
        rcases hv with ⟨t, ht, hc⟩ | ⟨t, ht, h1, h2⟩ | ⟨hn, _⟩
        · rw [hsome] at ht
          injection ht with ht
          subst ht
          simp only [Bool.not_eq_true] at hcontains
          rw [hc] at hcontains
          simp at hcontains
        · rw [hsome] at ht
          injection ht with ht
          subst ht
          exact hagree (by rw [h1, h2]; rfl)
        · rw [hsome] at hn; exact Option.noConfusion hn

theorem checkEdge_error_misconfigured {names : List String}
    {e : Option String × List TransitionCriterion} {r : ValidateErr}
    (h : checkEdge names e = .error r) : r.isMisconfigured = true := by
  unfold checkEdge at h
  repeat' split at h
  all_goals simp_all
  all_goals rw [← h]
  all_goals rfl

theorem checkEdges_ok_all {names : List String} :
    ∀ {es : List (Option String × List TransitionCriterion)},
    checkEdges names es = .ok () →
    ∀ e ∈ es, checkEdge names e = .ok () := by
  intro es
  induction es with
  | nil => intro _ e he; exact absurd he (List.not_mem_nil e)
  | cons a l ih =>
      intro h e he
      rw [checkEdges] at h
      split at h
      · simp_all
      · rename_i hok
        rcases List.mem_cons.mp he with h1 | h1
        · subst h1
          cases hc : checkEdge names e with
          | error r => rw [hc] at hok; exact Except.noConfusion hok
          | ok u => cases u; rfl
        · exact ih h e h1

theorem checkAllNodes_ok_all {names : List String} :
    ∀ {ns : List NodeConfig},
    checkAllNodes names ns = .ok () →
    ∀ n ∈ ns, checkEdges names n.transitionEdges = .ok () := by
  intro ns
  induction ns with
  | nil => intro _ n hn; exact absurd hn (List.not_mem_nil n)
  | cons a l ih =>
      intro h n hn
      rw [checkAllNodes] at h
      split at h
      · simp_all
      · rename_i hok
        rcases List.mem_cons.mp hn with h1 | h1
        · subst h1
          cases hc : checkEdges names n.transitionEdges with
          | error r => rw [hc] at hok; exact Except.noConfusion hok
          | ok u => cases u; rfl
        · exact ih h n h1

theorem checkEdges_error_misconfigured {names : List String} :
    ∀ {es : List (Option String × List TransitionCriterion)} {r : ValidateErr},
    checkEdges names es = .error r → r.isMisconfigured = true := by
  intro es
  induction es with
  | nil => intro r h; rw [checkEdges] at h; exact Except.noConfusion h
  | cons a l ih =>
      intro r h
      rw [checkEdges] at h
      split at h
      · rename_i er heq
        simp only [Except.error.injEq] at h
        subst h
        exact checkEdge_error_misconfigured heq
      · exact ih h

theorem checkAllNodes_error_misconfigured {names : List String} :
    ∀ {ns : List NodeConfig} {r : ValidateErr},
    checkAllNodes names ns = .error r → r.isMisconfigured = true := by
  intro ns
  induction ns with
  | nil => intro r h; rw [checkAllNodes] at h; exact Except.noConfusion h
  | cons a l ih =>
      intro r h
      rw [checkAllNodes] at h
      split at h
      · rename_i er heq
        simp only [Except.error.injEq] at h
        subst h
        exact checkEdges_error_misconfigured heq
      · exact ih h

theorem genTrialsLoop_ok_length {exp : Experiment}
    {apn : Option (List (String × Nat))} :
    ∀ {k : Nat} {tes : List TrialEnv} {st : GSState}
      {p : PendingObservations} {acc : List (List GeneratorRun)}
      {st' : GSState} {out : List (List GeneratorRun)},
    genTrialsLoop exp apn k tes st p acc = some (.ok (st', out)) →
    out.length = acc.length + k := by
  intro k
  induction k with
  | zero =>
      intro tes st p acc st' out h
      rw [genTrialsLoop] at h
      simp only [Option.some.injEq, Except.ok.injEq, Prod.mk.injEq] at h
      rw [← h.2]
      simp
  | succ n ih =>
      intro tes st p acc st' out h
      simp only [genTrialsLoop] at h
      split at h
      · exact Option.noConfusion h
      · split at h
        · exact Option.noConfusion h
        · simp_all
        · rename_i te rest x st2 p2 grs heq
          have := ih h
          rw [this]
          simp only [List.length_append, List.length_cons, List.length_nil]
          omega

/-! ### Claim theorems. -/

/-- C1: in the multi-node loop, a `DataRequiredError` raised by a node's
generation is propagated to the caller only when zero generator runs were
produced in that call — a propagated `DataRequiredError` leaves the run
history without new runs, provided no transition check raised it
(conjunct 1) — and when at least one run was already produced, the error is
swallowed and the partial list produced so far is returned (conjunct 2). -/
theorem c1_data_required_propagation :
    (∀ (exp : Experiment) (env : List IterEnv) (st : GSState)
       (p : PendingObservations) (st' : GSState),
       (∀ e ∈ env, e.stnTrans ≠ StnResult.raiseDR) →
       genLoop exp env st p [] = some (.error (.dataRequired, st')) →
       st'.generatorRuns = st.generatorRuns)
    ∧ (∀ (exp : Experiment) (e : IterEnv) (rest : List IterEnv)
         (st st2 : GSState) (p : PendingObservations)
         (grs : List GeneratorRun),
       genStepPre e st = .ok st2 →
       e.genResult = NodeGenResult.dataRequired →
       grs ≠ [] →
       genLoop exp (e :: rest) st p grs = some (.ok (st2, p, grs))) := by
  constructor
  · intro exp env st p st' hnd h
    exact (genLoop_error_dataRequired hnd h).2
  · intro exp e rest st st2 p grs hpre hdr hne
    exact genLoop_cons_dataRequired_swallow hpre hdr hne

/-- C1 witness: with zero runs produced, the `DataRequiredError` from
`iterTransDR` propagates and the history is unchanged; with `gr0` already
produced, the same iteration's error is swallowed and `[gr0]` returned. -/
theorem c1_witness :
    (genLoop exp0 [iterTransDR] stLeak [] []
        = some (.error (.dataRequired, stLeakLoopDR))
      ∧ stLeakLoopDR.generatorRuns = stLeak.generatorRuns)
    ∧ (genStepPre iterTransDR st0 = .ok stPre0
      ∧ genLoop exp0 [iterTransDR] st0 [] [gr0]
          = some (.ok (stPre0, [], [gr0]))) := by
  constructor
  · exact ⟨rfl, c1_data_required_propagation.1 exp0 [iterTransDR] stLeak []
      stLeakLoopDR (by decide) rfl⟩
  · exact ⟨rfl, c1_data_required_propagation.2 exp0 iterTransDR [] st0
      stPre0 [] [gr0] rfl rfl (by decide)⟩

/-- C2: when the multi-node loop produced more than one generator run for
the single trial being generated, `gen` raises `UnsupportedError`; when it
produced exactly one, `gen` returns it. -/
theorem c2_gen_single_run (exp : Experiment) (st : GSState)
    (pendingArg : Option PendingObservations) (te : TrialEnv)
    (st1 st2 : GSState) (p2 : PendingObservations) (grs : List GeneratorRun)
    (hse : set_experiment st exp = .ok st1)
    (hloop : gen_with_multiple_nodes exp st1 pendingArg none te
      = some (.ok (st2, p2, grs))) :
    (grs.length > 1 →
      gen exp st pendingArg te = some (.error (.unsupported, st2)))
    ∧ (grs.length = 1 → ∃ g, grs = [g]
        ∧ gen exp st pendingArg te = some (.ok (st2, p2, g))) := by
  constructor
  · intro hlen
    unfold gen
    rw [hse]
    simp only []
    rw [hloop]
    simp [hlen]
  · intro hlen
    match grs, hlen with
    | [g], _ =>
        refine ⟨g, rfl, ?_⟩
        unfold gen
        rw [hse]
        simp only []
        rw [hloop]
        simp

/-- C2 witness: the two-node trial `trialTwo` produces `[gr0, gr1]`; `gen`
on it raises `UnsupportedError`, while `trialOk` produces one run which
`gen` returns. -/
theorem c2_witness :
    gen exp0 st0 none trialTwo = some (.error (.unsupported, stTwoAfter))
    ∧ (∃ g, ([gr0] : List GeneratorRun) = [g]
        ∧ gen exp0 st0 none trialOk
            = some (.ok (stOkAfter, [("m", ["a0"])], g))) := by
  constructor
  · exact (c2_gen_single_run exp0 st0 none trialTwo stA1 stTwoAfter
      [("m", ["a0", "a1"])] [gr0, gr1] rfl rfl).1 (by decide)
  · exact (c2_gen_single_run exp0 st0 none trialOk stA1 stOkAfter
      [("m", ["a0"])] [gr0] rfl rfl).2 (by decide)

/-- C3: `optimization_complete` is true exactly when every node reports
itself completed (conjunct 1); attempting a transition (the node's check
signals a move) while all nodes are completed raises
`GenerationStrategyCompleted` (conjunct 2); attempting to generate while all
nodes are completed raises it as well (conjunct 3). -/
theorem c3_optimization_complete :
    (∀ completed : List Bool,
       optimization_complete completed = true ↔ ∀ b ∈ completed, b = true)
    ∧ (∀ (st : GSState) (t : Option String) (completed : List Bool)
         (r : Bool),
       optimization_complete completed = true →
       maybe_transition_to_next_node st (.ans true t) completed r
         = .error (.gsCompleted, st))
    ∧ (∀ (exp : Experiment) (st : GSState)
         (pa : Option PendingObservations)
         (apn : Option (List (String × Nat))) (te : TrialEnv),
       optimization_complete te.completedAtEntry = true →
       gen_with_multiple_nodes exp st pa apn te
         = some (.error (.gsCompleted,
             { st with experimentName := some exp.name }))) := by
  refine ⟨?_, ?_, ?_⟩
  · intro completed
    simp [optimization_complete, List.all_eq_true]
  · intro st t completed r h
    unfold maybe_transition_to_next_node
    simp [h]
  · intro exp st pa apn te h
    unfold gen_with_multiple_nodes
    simp [h]

/-- C3 witness: concrete instantiation with both nodes completed. -/
theorem c3_witness :
    (optimization_complete [true, true] = true ↔ ∀ b ∈ [true, true], b = true)
    ∧ maybe_transition_to_next_node st0 (.ans true (some "B")) [true, true]
        true = .error (.gsCompleted, st0)
    ∧ gen_with_multiple_nodes exp0 st0 none none
        { completedAtEntry := [true, true], iters := [] }
        = some (.error (.gsCompleted,
            { st0 with experimentName := some exp0.name })) :=
  ⟨c3_optimization_complete.1 [true, true],
   c3_optimization_complete.2.1 st0 (some "B") [true, true] true rfl,
   c3_optimization_complete.2.2 exp0 st0 none none
     { completedAtEntry := [true, true], iters := [] } rfl⟩

/-- C4 counterexample: with requested `num_trials = 0` and an unlimited
budget (`new_trial_limit = -1`) the code performs one single-trial
iteration, while the claim's formula — the requested count, clamped only
when the budget is finite — predicts zero. -/
theorem c4_counterexample :
    gen_for_multiple_trials_with_multiple_models exp0 st0 (some []) 0 none
        { newTrialLimit := -1, extractedPending := [], trials := [trialOk] }
      = some (.ok (stOkAfter, [[gr0]]), [])
    ∧ ([[gr0]] : List (List GeneratorRun)).length = 1
    ∧ (claimedTrialCount 0 (-1)).toNat = 0 := by
  exact ⟨rfl, rfl, by decide⟩

/-- C4 (amended): on normal completion, the number of single-trial
iterations equals the requested `num_trials` clamped to the current node's
remaining budget when finite AND floored at one:
`max(min(num_trials, limit), 1)` iterations (`max(num_trials, 1)` when the
budget is `-1`, unlimited). -/
theorem c4_trial_count (exp : Experiment) (st : GSState)
    (pendingArg : Option PendingObservations) (numTrials : Int)
    (apn : Option (List (String × Nat))) (env : MultiEnv) (st' : GSState)
    (out : List (List GeneratorRun)) (cp : PendingObservations)
    (h : gen_for_multiple_trials_with_multiple_models exp st pendingArg
        numTrials apn env = some (.ok (st', out), cp)) :
    out.length = (clampedNumTrials numTrials env.newTrialLimit).toNat := by
  unfold gen_for_multiple_trials_with_multiple_models at h
  split at h
  · simp_all
  · split at h
    · simp_all
    · rename_i r heq
      simp only [Option.some.injEq, Prod.mk.injEq] at h
      rw [h.1] at heq
      simpa using genTrialsLoop_ok_length heq

/-- C4 witness: two requested trials under an unlimited budget yield two
iterations. -/
theorem c4_witness :
    gen_for_multiple_trials_with_multiple_models exp0 st0 (some []) 2 none
        { newTrialLimit := -1, extractedPending := [],
          trials := [trialOk, trialOk] }
      = some (.ok (stOk2After, [[gr0], [gr0]]), [])
    ∧ ([[gr0], [gr0]] : List (List GeneratorRun)).length
        = (clampedNumTrials 2 (-1)).toNat := by
  refine ⟨rfl, ?_⟩
  exact c4_trial_count exp0 st0 (some []) 2 none
    { newTrialLimit := -1, extractedPending := [],
      trials := [trialOk, trialOk] } stOk2After [[gr0], [gr0]] [] rfl

/-- C5 counterexample: `gen` (the single-trial path) hands the caller's
pending-observations map straight to the multi-node loop, which extends it
in place — after the call the caller's map content has changed, refuting
"never mutated except by the multi-trial entry point". -/
theorem c5_counterexample :
    gen exp0 st0 (some [("m", [])]) trialOk
        = some (.ok (stOkAfter, [("m", ["a0"])], gr0))
    ∧ ([("m", ["a0"])] : PendingObservations) ≠ [("m", [])] := by
  exact ⟨rfl, by decide⟩

/-- C5 (amended): the multi-trial entry point deep-copies the caller's map,
so the caller's map content survives every such call unchanged (conjunct 1,
the evolving copy being threaded across trial iterations by
`genTrialsLoop`); the single-trial loop instead mutates the map it is handed
in place: an iteration that produces run `gr` and stops leaves the map
extended with `gr`'s arms (conjunct 2). -/
theorem c5_pending_mutation :
    (∀ (exp : Experiment) (st : GSState)
       (pendingArg : Option PendingObservations) (numTrials : Int)
       (apn : Option (List (String × Nat))) (env : MultiEnv)
       (res : Except (GSErrKind × GSState)
         (GSState × List (List GeneratorRun))) (cp : PendingObservations),
       gen_for_multiple_trials_with_multiple_models exp st pendingArg
           numTrials apn env = some (res, cp) →
       cp = pendingArg.getD [])
    ∧ (∀ (exp : Experiment) (e : IterEnv) (rest : List IterEnv)
         (st st2 : GSState) (p : PendingObservations)
         (grs : List GeneratorRun) (gr : GeneratorRun),
       genStepPre e st = .ok st2 →
       e.genResult = NodeGenResult.run gr →
       e.stnCont.1 = false →
       genLoop exp (e :: rest) st p grs
         = some (.ok (appendRun (setFitted st2 e.fittedAfterGen) gr,
             extend_pending_observations exp p gr, grs ++ [gr]))) := by
  constructor
  · intro exp st pendingArg numTrials apn env res cp h
    unfold gen_for_multiple_trials_with_multiple_models at h
    split at h
    · simp only [Option.some.injEq, Prod.mk.injEq] at h
      exact h.2.symm
    · split at h
      · exact Option.noConfusion h
      · simp only [Option.some.injEq, Prod.mk.injEq] at h
        exact h.2.symm
  · intro exp e rest st st2 p grs gr hpre hrun hcont
    rw [genLoop]
    unfold genStep
    rw [hpre, hrun]
    unfold should_continue_gen_for_trial
    simp [hcont]

/-- C5 witness: the multi-trial call leaves the caller's map `[("m", [])]`
unchanged, and a concrete single-iteration loop extends the map it is
handed. -/
theorem c5_witness :
    (gen_for_multiple_trials_with_multiple_models exp0 st0
          (some [("m", [])]) 1 none
          { newTrialLimit := -1, extractedPending := [], trials := [trialOk] }
        = some (.ok (stOkAfter, [[gr0]]), [("m", [])])
      ∧ ([("m", [])] : PendingObservations)
          = (some [("m", [])] : Option PendingObservations).getD [])
    ∧ (genStepPre iterOk st0 = .ok st0
      ∧ genLoop exp0 [iterOk] st0 [("m", [])] []
          = some (.ok (appendRun (setFitted st0 iterOk.fittedAfterGen) gr0,
              extend_pending_observations exp0 [("m", [])] gr0, [gr0]))) := by
  constructor
  · refine ⟨rfl, ?_⟩
    exact c5_pending_mutation.1 exp0 st0 (some [("m", [])]) 1 none
      { newTrialLimit := -1, extractedPending := [], trials := [trialOk] }
      (.ok (stOkAfter, [[gr0]])) [("m", [])] rfl
  · exact ⟨rfl, c5_pending_mutation.2 exp0 iterOk [] st0 st0 [("m", [])] []
      gr0 rfl rfl rfl⟩

/-- C6 counterexample: a `DataRequiredError` propagating out of the
generation call with zero runs produced leaves visibly mutated state —
`_curr` moved, `_model` cleared, node `A`'s `_should_skip` reset and the
experiment bound — refuting "state unchanged from before the call". -/
theorem c6_counterexample :
    gen_with_multiple_nodes exp0 stLeak none none
        { completedAtEntry := [false, false], iters := [iterTransDR] }
        = some (.error (.dataRequired, stLeakCallDR))
    ∧ stLeakCallDR ≠ stLeak := by
  exact ⟨rfl, by decide⟩

/-- C6 (amended): exceptions do not roll back state; the raised error
carries the state as mutated up to the raise.  Conjunct 1: `gen`'s
`UnsupportedError` carries the post-loop state, whose run history has grown
by exactly the runs produced.  Conjunct 2: a `DataRequiredError` propagated
with zero runs carries the state produced by the pre-`gen` part of the
iteration (transition and skip-flag mutations included), not the entry
state. -/
theorem c6_state_on_exception :
    (∀ (exp : Experiment) (st : GSState)
       (pendingArg : Option PendingObservations) (te : TrialEnv)
       (st1 st2 : GSState) (p2 : PendingObservations)
       (grs : List GeneratorRun),
       set_experiment st exp = .ok st1 →
       gen_with_multiple_nodes exp st1 pendingArg none te
         = some (.ok (st2, p2, grs)) →
       grs.length > 1 →
       gen exp st pendingArg te = some (.error (.unsupported, st2))
       ∧ st2.generatorRuns = st.generatorRuns ++ grs)
    ∧ (∀ (exp : Experiment) (e : IterEnv) (rest : List IterEnv)
         (st st2 : GSState) (p : PendingObservations),
       genStepPre e st = .ok st2 →
       e.genResult = NodeGenResult.dataRequired →
       genLoop exp (e :: rest) st p []
         = some (.error (.dataRequired, st2))) := by
  constructor
  · intro exp st pendingArg te st1 st2 p2 grs hse hloop hlen
    refine ⟨?_, ?_⟩
    · unfold gen
      rw [hse]
      simp only []
      rw [hloop]
      simp [hlen]
    · rw [(gwmn_ok_generatorRuns hloop).2, set_experiment_ok_generatorRuns hse]
  · intro exp e rest st st2 p hpre hdr
    exact genLoop_cons_dataRequired_propagates hpre hdr

/-- C6 witness: concrete instantiation of both conjuncts. -/
theorem c6_witness :
    (gen exp0 st0 none trialTwo = some (.error (.unsupported, stTwoAfter))
      ∧ stTwoAfter.generatorRuns = st0.generatorRuns ++ [gr0, gr1])
    ∧ (genStepPre iterTransDR stLeak = .ok stLeakLoopDR
      ∧ genLoop exp0 [iterTransDR] stLeak [] []
          = some (.error (.dataRequired, stLeakLoopDR))) := by
  constructor
  · exact c6_state_on_exception.1 exp0 st0 none trialTwo stA1 stTwoAfter
      [("m", ["a0", "a1"])] [gr0, gr1] rfl rfl (by decide)
  · exact ⟨rfl, c6_state_on_exception.2 exp0 iterTransDR [] stLeak
      stLeakLoopDR [] rfl rfl⟩

/-- C7 counterexample: re-binding a strategy bound to experiment `"other"`
to `exp0` (named `"e0"`) raises `ValueError`, not the `UnsupportedError`
the claim assigns to this failure. -/
theorem c7_counterexample :
    set_experiment { st0 with experimentName := some "other" } exp0
      = .error (.valueError, { st0 with experimentName := some "other" })
    ∧ GSErrKind.valueError ≠ GSErrKind.unsupported := by
  exact ⟨rfl, by decide⟩

/-- C7 (amended): the experiment setter is idempotent — it succeeds when no
experiment is bound (conjunct 1) or when the new experiment's name matches
the bound one (conjunct 2), and re-applying it is a fixed point
(conjunct 4) — while binding an experiment with a different name fails with
a `ValueError` (conjunct 3), not an `UnsupportedError`. -/
theorem c7_set_experiment (st : GSState) (exp : Experiment) :
    (st.experimentName = none →
      set_experiment st exp = .ok { st with experimentName := some exp.name })
    ∧ (st.experimentName = some exp.name →
      set_experiment st exp = .ok { st with experimentName := some exp.name })
    ∧ (∀ n, st.experimentName = some n → exp.name ≠ n →
      set_experiment st exp = .error (.valueError, st))
    ∧ (∀ st', set_experiment st exp = .ok st' →
      set_experiment st' exp = .ok st') := by
  refine ⟨?_, ?_, ?_, ?_⟩
  · intro h
    unfold set_experiment
    rw [h]
  · intro h
    unfold set_experiment
    rw [h]
    simp
  · intro n h hne
    unfold set_experiment
    rw [h]
    simp [hne]
  · intro st' h
    have heq := set_experiment_ok_eq h
    subst heq
    unfold set_experiment
    simp

/-- C7 witness: concrete instantiation of all four conjuncts on `st0`. -/
theorem c7_witness :
    set_experiment st0 exp0 = .ok { st0 with experimentName := some "e0" }
    ∧ set_experiment { st0 with experimentName := some "e0" } exp0
        = .ok { st0 with experimentName := some "e0" }
    ∧ set_experiment { st0 with experimentName := some "other" } exp0
        = .error (.valueError, { st0 with experimentName := some "other" }) := by
  refine ⟨?_, ?_, ?_⟩
  · exact (c7_set_experiment st0 exp0).1 rfl
  · exact (c7_set_experiment { st0 with experimentName := some "e0" } exp0).2.1
      rfl
  · exact (c7_set_experiment { st0 with experimentName := some "other" }
      exp0).2.2.1 "other" rfl (by decide)

/-- C8: constructing a node-based strategy fails with a
`GenerationStrategyMisconfiguredException` whenever some criterion's
`transition_to` names a node absent from the strategy, or two criteria on
one node-to-node edge disagree on `continue_trial_generation`, or a
criterion other than a max-parallelism one sits on a null-target edge. -/
theorem c8_node_graph_validation (ns : List NodeConfig)
    (hviol : ∃ n ∈ ns, ∃ e ∈ n.transitionEdges,
      edgeViolation (ns.map fun n => n.nodeName) e) :
    ∃ r, validate_and_set_node_graph ns = .error r
      ∧ r.isMisconfigured = true := by
  obtain ⟨n, hn, e, he, hv⟩ := hviol
  unfold validate_and_set_node_graph
  cases hc : collectNodeNames ns [] with
  | error r =>
      refine ⟨r, rfl, ?_⟩
      rw [collectNodeNames_error hc]
      rfl
  | ok names =>
      have hnames : names = ns.map fun n => n.nodeName := by
        simpa using collectNodeNames_ok hc
      cases hall : checkAllNodes names ns with
      | error r =>
          exact ⟨r, by simp [hall], checkAllNodes_error_misconfigured hall⟩
      | ok u =>
          exfalso
          have hok := checkEdges_ok_all (checkAllNodes_ok_all
            (by cases u; exact hall) n hn) e he
          exact checkEdge_ok_no_violation hok (by rw [hnames]; exact hv)

/-- C8 witness: a node whose criterion transitions to the non-existent node
`"Z"` makes construction fail. -/
theorem c8_witness :
    ∃ r, validate_and_set_node_graph
        [nodeA, { nodeName := "C", transitionEdges := [(some "Z", [tcAB])] }]
        = .error r ∧ r.isMisconfigured = true := by
  refine c8_node_graph_validation _
    ⟨{ nodeName := "C", transitionEdges := [(some "Z", [tcAB])] },
      by simp, (some "Z", [tcAB]), by simp, Or.inl ⟨"Z", rfl, by decide⟩⟩

/-- C9: whenever the multi-node loop returns normally, its run list is
non-empty, so the indexing of the first element in `gen` never fails: on a
normally-returned loop result, `gen` yields either the `UnsupportedError`
(more than one run) or the first run — never an `IndexError`. -/
theorem c9_normal_return_nonempty (exp : Experiment) (st : GSState)
    (pendingArg : Option PendingObservations) (te : TrialEnv)
    (st1 st2 : GSState) (p2 : PendingObservations) (grs : List GeneratorRun)
    (hse : set_experiment st exp = .ok st1)
    (hloop : gen_with_multiple_nodes exp st1 pendingArg none te
      = some (.ok (st2, p2, grs))) :
    grs ≠ []
    ∧ ((grs.length > 1
        ∧ gen exp st pendingArg te = some (.error (.unsupported, st2)))
      ∨ (∃ g, grs = [g]
        ∧ gen exp st pendingArg te = some (.ok (st2, p2, g)))) := by
  have hne := (gwmn_ok_generatorRuns hloop).1
  refine ⟨hne, ?_⟩
  match grs, hne with
  | [g], _ =>
      right
      refine ⟨g, rfl, ?_⟩
      unfold gen
      rw [hse]
      simp only []
      rw [hloop]
      simp
  | g1 :: g2 :: t, _ =>
      left
      have hlen : (g1 :: g2 :: t).length > 1 := by
        simp only [List.length_cons]
        omega
      refine ⟨hlen, ?_⟩
      unfold gen
      rw [hse]
      simp only []
      rw [hloop]
      simp [hlen]

/-- C9 witness: concrete instantiation on the one-run trial `trialOk`. -/
theorem c9_witness :
    set_experiment st0 exp0 = .ok stA1
    ∧ gen_with_multiple_nodes exp0 stA1 none none trialOk
        = some (.ok (stOkAfter, [("m", ["a0"])], [gr0]))
    ∧ ([gr0] : List GeneratorRun) ≠ [] := by
  refine ⟨rfl, rfl, ?_⟩
  exact (c9_normal_return_nonempty exp0 st0 none trialOk stA1 stOkAfter
    [("m", ["a0"])] [gr0] rfl rfl).1

/-- C10: for every strategy state and every string, assigning to the public
`name` attribute raises `AttributeError`: after the class body's first
getter definition the setter was added (conjunct 2), but the later
getter-only re-definition shadows it (conjunct 3), so the final property has
no setter and assignment fails (conjunct 1). -/
theorem c10_name_setter_shadowed :
    (∀ (st : GSState) (v : String),
      setName st v = .error GSErrKind.attributeError)
    ∧ (nameClassBody.take 2).foldl applyNameStep none
        = some { hasGetter := true, hasSetter := true }
    ∧ namePropertyFinal = some { hasGetter := true, hasSetter := false } := by
  exact ⟨fun st v => rfl, rfl, rfl⟩

end AxGS
